import Mathlib

/-!
Shallow embedding of the Stella Cradle Mk-1 rotating-habitat simulator.

The physics of the primary implementation is modelled from its per-frame
update callbacks: the hub rotation (MainRotatingMechanism), the two-axis
universal joint solver (UniversalJointAssembly), the connecting-arm lag
filter (ConnectingArmToBox), the self-rotation controller (BoxHabitat),
and the derived scalar report of the App component.  The secondary
implementation's derived report is modelled separately.  Machine floats
are embedded as real numbers.
-/

noncomputable section

namespace StellaCradle

/-- Planetary environment selectable in the UI (keys of PLANET_DATA /
PLANET_CONFIGS): earth, moon, mars, space. -/
inductive Planet
  | earth
  | moon
  | mars
  | space
  deriving DecidableEq

/-- Gravity magnitude per environment, PLANET_DATA[planet].gravity. -/
def gravity : Planet → ℝ
  | .earth => 9.81
  | .moon => 1.62
  | .mars => 3.71
  | .space => 0

/-- Distance from the rotation axis to the universal joint, ARM_LENGTH = 4. -/
def ARM_LENGTH : ℝ := 4

/-- Habitat box mass in kilograms, BOX_MASS = 50. -/
def BOX_MASS : ℝ := 50

/-- Per-tick angular velocity damping, ANGULAR_DAMPING = 0.88. -/
def ANGULAR_DAMPING : ℝ := 0.88

/-- Alignment speed toward the gravity direction, GRAVITY_ALIGNMENT_SPEED = 1.5. -/
def GRAVITY_ALIGNMENT_SPEED : ℝ := 1.5

/-- Centrifugal bulge factor of the arm lag, CENTRIFUGAL_BULGE_FACTOR = 0.8. -/
def CENTRIFUGAL_BULGE_FACTOR : ℝ := 0.8

/-- Hub angular velocity in rad/s from the rpm slider: (rpm * 2 * PI) / 60. -/
def angularVelocity (rpm : ℝ) : ℝ := rpm * 2 * Real.pi / 60

/-- Centrifugal acceleration, computed in every solver as
angularVelocity * angularVelocity * ARM_LENGTH. -/
def centrifugalAcceleration (rpm : ℝ) : ℝ :=
  angularVelocity rpm * angularVelocity rpm * ARM_LENGTH

/-- Per-module joint state of UniversalJointAssembly: the jointAngles
components x, z and the angularVelocities components x, z. -/
@[ext] structure JointState where
  angleX : ℝ
  angleZ : ℝ
  velX : ℝ
  velZ : ℝ

/-- The X-axis target of the joint is neutral: targetAngleX = 0. -/
def targetAngleX : ℝ := 0

/-- Target Z angle of the joint while spinning, after the min with
maxAngle = PI/2: PI/2 in the space environment, otherwise
atan(centrifugalAcceleration / planetGravity). -/
def clampedTargetZ (p : Planet) (rpm : ℝ) : ℝ :=
  min (if p = Planet.space then Real.pi / 2
       else Real.arctan (centrifugalAcceleration rpm / gravity p)) (Real.pi / 2)

/-- One per-frame update of UniversalJointAssembly's joint state.  While
isRotating with rpm > 0 the joint is driven toward the clamped target with
a mass-scaled response speed; otherwise in space the angles are held and
the velocities decay, and in a gravity environment the joint is driven
back to zero at returnSpeed = GRAVITY_ALIGNMENT_SPEED * 1.5. -/
def stepJoint (p : Planet) (isRotating : Bool) (rpm personMass delta : ℝ)
    (s : JointState) : JointState :=
  if isRotating = true ∧ 0 < rpm then
    let massInertiaFactor := Real.sqrt ((BOX_MASS + personMass) / 50)
    let responseSpeed := GRAVITY_ALIGNMENT_SPEED / massInertiaFactor
    let angleDiffZ := clampedTargetZ p rpm - s.angleZ
    let angleDiffX := targetAngleX - s.angleX
    let newVelX := (s.velX + angleDiffX * responseSpeed * delta) * ANGULAR_DAMPING
    let newVelZ := (s.velZ + angleDiffZ * responseSpeed * delta) * ANGULAR_DAMPING
    ⟨s.angleX + newVelX * delta, s.angleZ + newVelZ * delta, newVelX, newVelZ⟩
  else if p = Planet.space then
    ⟨s.angleX, s.angleZ, s.velX * ANGULAR_DAMPING, s.velZ * ANGULAR_DAMPING⟩
  else
    let returnSpeed := GRAVITY_ALIGNMENT_SPEED * 1.5
    let newVelX := (s.velX + (-s.angleX) * returnSpeed * delta) * ANGULAR_DAMPING
    let newVelZ := (s.velZ + (-s.angleZ) * returnSpeed * delta) * ANGULAR_DAMPING
    ⟨s.angleX + newVelX * delta, s.angleZ + newVelZ * delta, newVelX, newVelZ⟩

/-- Arm-lag target of ConnectingArmToBox while spinning, after the min with
maxLagAngle = PI/6: in space atan(ca / 10) * CENTRIFUGAL_BULGE_FACTOR * 0.3,
otherwise atan(ca / planetGravity) * CENTRIFUGAL_BULGE_FACTOR. -/
def clampedLagTarget (p : Planet) (rpm : ℝ) : ℝ :=
  min (if p = Planet.space then
        Real.arctan (centrifugalAcceleration rpm / 10) * CENTRIFUGAL_BULGE_FACTOR * 0.3
      else
        Real.arctan (centrifugalAcceleration rpm / gravity p) * CENTRIFUGAL_BULGE_FACTOR)
    (Real.pi / 6)

/-- One per-frame update of ConnectingArmToBox's inertialLagAngle: while
spinning a first-order filter toward the clamped lag target at
lagSpeed = 2.0; stopped in space the lag is held; stopped in a gravity
environment the lag relaxes to 0 at returnSpeed = 3.0. -/
def stepLag (p : Planet) (isRotating : Bool) (rpm delta lag : ℝ) : ℝ :=
  if isRotating = true ∧ 0 < rpm then
    lag + (clampedLagTarget p rpm - lag) * 2.0 * delta
  else if p = Planet.space then
    lag
  else
    lag + (-lag) * 3.0 * delta

/-- BoxHabitat self-rotation state: the boxRotation React state and the
rendered yaw (boxRef rotation.y). -/
@[ext] structure BoxState where
  boxRotation : ℝ
  yaw : ℝ

/-- One per-frame update of BoxHabitat's self-rotation; clock is the value
of state.clock.getElapsedTime() at this frame.  While spinning with the
rotation lock on, the counter-rotation is -(angularVelocity) * clock; with
the lock off the yaw is reset to 0.  Stopped in space the rotation is held
(re-applied from boxRotation when locked); stopped in a gravity environment
the yaw lerps toward 0 at rate delta * 3 and boxRotation is reset to 0. -/
def stepBox (p : Planet) (isRotating rotationLocked : Bool) (rpm delta clock : ℝ)
    (s : BoxState) : BoxState :=
  if isRotating = true ∧ 0 < rpm then
    if rotationLocked then
      let targetRotation := -angularVelocity rpm * clock
      ⟨targetRotation, targetRotation⟩
    else ⟨0, 0⟩
  else if p = Planet.space then
    if rotationLocked then ⟨s.boxRotation, s.boxRotation⟩ else s
  else
    ⟨0, s.yaw + (0 - s.yaw) * (delta * 3)⟩

/-- One per-frame update of MainRotatingMechanism's hub yaw: while
isRotating the hub integrates angularVelocity * delta, otherwise it holds. -/
def stepHub (isRotating : Bool) (rpm delta hub : ℝ) : ℝ :=
  if isRotating then hub + angularVelocity rpm * delta else hub

/-- Whole-system per-frame state relevant to the self-rotation controller:
the global clock, the hub yaw, and one module's BoxHabitat state. -/
structure SimState where
  clock : ℝ
  hub : ℝ
  box : BoxState

/-- Inputs of one frame: the elapsed delta, the active flag, and the rpm
slider value. -/
structure FrameInput where
  delta : ℝ
  isRotating : Bool
  rpm : ℝ

/-- One whole-system frame: the clock advances by delta, the hub integrates
while rotating, and BoxHabitat recomputes its self-rotation from the clock. -/
def stepSim (p : Planet) (rotationLocked : Bool) (f : FrameInput)
    (s : SimState) : SimState :=
  let clock := s.clock + f.delta
  ⟨clock, stepHub f.isRotating f.rpm f.delta s.hub,
    stepBox p f.isRotating rotationLocked f.rpm f.delta clock s.box⟩

/-- Run a sequence of frames from an initial state. -/
def runSim (p : Planet) (rotationLocked : Bool) : List FrameInput → SimState → SimState
  | [], s => s
  | f :: fs, s => runSim p rotationLocked fs (stepSim p rotationLocked f s)

/-- Centrifugal acceleration of the primary App's derived report, gated on
isRotating. -/
def appCentrifugalAcceleration (isRotating : Bool) (rpm : ℝ) : ℝ :=
  if isRotating then angularVelocity rpm * angularVelocity rpm * ARM_LENGTH else 0

/-- Combined gravity (totalGravity) of the primary App's derived report:
totalForce / totalMass with the source's branching on isRotating and on the
space environment. -/
def appTotalGravity (p : Planet) (isRotating : Bool) (rpm personMass : ℝ) : ℝ :=
  let ca := appCentrifugalAcceleration isRotating rpm
  let totalMass := BOX_MASS + personMass
  let gravitationalForce := totalMass * gravity p
  let centrifugalForce := if isRotating then totalMass * ca else 0
  let totalForce :=
    if isRotating then
      if p = Planet.space then centrifugalForce
      else Real.sqrt (centrifugalForce * centrifugalForce +
        gravitationalForce * gravitationalForce)
    else gravitationalForce
  totalForce / totalMass

/-- Centrifugal acceleration of the secondary App's derived report (not
gated on rotation): angularVelocity^2 * ARM_LENGTH. -/
def app2CentrifugalAcceleration (rpm : ℝ) : ℝ :=
  angularVelocity rpm ^ 2 * ARM_LENGTH

/-- Combined gravity of the secondary App's derived report:
sqrt(ca^2 + planetGravity^2) in every environment. -/
def app2TotalGravity (p : Planet) (rpm : ℝ) : ℝ :=
  Real.sqrt (app2CentrifugalAcceleration rpm ^ 2 + gravity p ^ 2)

/-- Habitat configuration options (keys of HABITAT_CONFIGS). -/
inductive HabitatConfig
  | single
  | dual
  | quad
  | hexa
  | octa
  deriving DecidableEq

/-- Module count per habitat configuration, HABITAT_CONFIGS[...].count. -/
def habitatCount : HabitatConfig → ℕ
  | .single => 1
  | .dual => 2
  | .quad => 4
  | .hexa => 6
  | .octa => 8

/-- Configuration values the primary App feeds into the solvers. -/
structure AppConfig where
  habitatConfig : HabitatConfig
  personMass : ℝ
  connectingArmLength : ℝ
  rpm : ℝ

/-- The configuration surface of the primary App: the habitat count comes
from the HABITAT_CONFIGS dropdown and the numeric values from range inputs
whose min/max attributes bound personMass to 40..120, connectingArmLength
to 0.3..2.0 and rpm to 0..60. -/
def acceptedConfig (c : AppConfig) : Prop :=
  40 ≤ c.personMass ∧ c.personMass ≤ 120 ∧
  (0.3 : ℝ) ≤ c.connectingArmLength ∧ c.connectingArmLength ≤ 2.0 ∧
  0 ≤ c.rpm ∧ c.rpm ≤ 60

/-- The gravity magnitude of every environment is nonnegative. -/
lemma gravity_nonneg (p : Planet) : 0 ≤ gravity p := by
  cases p <;> norm_num [gravity]

/-- The gravity magnitude of every non-space environment is positive. -/
lemma gravity_pos {p : Planet} (hp : p ≠ Planet.space) : 0 < gravity p := by
  cases p <;> first | exact absurd rfl hp | norm_num [gravity]

/-- Centrifugal acceleration is a square times a positive length, hence
nonnegative. -/
lemma centrifugalAcceleration_nonneg (rpm : ℝ) : 0 ≤ centrifugalAcceleration rpm := by
  unfold centrifugalAcceleration
  have h1 : (0:ℝ) ≤ angularVelocity rpm * angularVelocity rpm := mul_self_nonneg _
  have h2 : (0:ℝ) ≤ ARM_LENGTH := by norm_num [ARM_LENGTH]
  exact mul_nonneg h1 h2

/-- Arctangent of a nonnegative real is nonnegative. -/
lemma arctan_nonneg {x : ℝ} (h : 0 ≤ x) : 0 ≤ Real.arctan x := by
  have := Real.arctan_strictMono.monotone h
  rwa [Real.arctan_zero] at this

/-- C3: in the space environment with the mechanism stopped, a joint update
leaves both angles exactly unchanged and multiplies both angular velocities
by the damping factor 0.88. -/
theorem vacuum_hold_on_stop (rpm personMass delta : ℝ) (s : JointState) :
    (stepJoint Planet.space false rpm personMass delta s).angleX = s.angleX ∧
    (stepJoint Planet.space false rpm personMass delta s).angleZ = s.angleZ ∧
    (stepJoint Planet.space false rpm personMass delta s).velX = s.velX * 0.88 ∧
    (stepJoint Planet.space false rpm personMass delta s).velZ = s.velZ * 0.88 := by
  simp [stepJoint, ANGULAR_DAMPING]

/-- C10: one tick taken while active at rpm = 0 produces exactly the same
joint, arm-lag and habitat self-rotation update as one tick taken while
inactive, all other inputs equal, because every solver branches on
isRotating AND rpm > 0. -/
theorem active_zero_rpm_matches_inactive (p : Planet) (personMass delta lag clock : ℝ)
    (rotationLocked : Bool) (s : JointState) (b : BoxState) :
    stepJoint p true 0 personMass delta s = stepJoint p false 0 personMass delta s ∧
    stepLag p true 0 delta lag = stepLag p false 0 delta lag ∧
    stepBox p true rotationLocked 0 delta clock b =
      stepBox p false rotationLocked 0 delta clock b := by
  refine ⟨?_, ?_, ?_⟩ <;> simp [stepJoint, stepLag, stepBox]

/-- C4: while driving (active with spin), the joint update computes
massInertiaFactor = sqrt((BOX_MASS + personMass) / BOX_MASS) and
responseSpeed = 1.5 / massInertiaFactor, sets each velocity to
(velocity + (target - angle) * responseSpeed * delta) * 0.88, then each
angle to angle + velocity * delta, with target 0 on the X axis and the
clamped Z target on the Z axis. -/
theorem drive_update_formula (p : Planet) (rpm personMass delta : ℝ) (s : JointState)
    (h : 0 < rpm) :
    stepJoint p true rpm personMass delta s =
      ⟨s.angleX + (s.velX + (0 - s.angleX) *
          (1.5 / Real.sqrt ((BOX_MASS + personMass) / BOX_MASS)) * delta) * 0.88 * delta,
       s.angleZ + (s.velZ + (clampedTargetZ p rpm - s.angleZ) *
          (1.5 / Real.sqrt ((BOX_MASS + personMass) / BOX_MASS)) * delta) * 0.88 * delta,
       (s.velX + (0 - s.angleX) *
          (1.5 / Real.sqrt ((BOX_MASS + personMass) / BOX_MASS)) * delta) * 0.88,
       (s.velZ + (clampedTargetZ p rpm - s.angleZ) *
          (1.5 / Real.sqrt ((BOX_MASS + personMass) / BOX_MASS)) * delta) * 0.88⟩ := by
  rw [stepJoint, if_pos ⟨rfl, h⟩]
  norm_num [GRAVITY_ALIGNMENT_SPEED, ANGULAR_DAMPING, BOX_MASS, targetAngleX]

/-- Witness for drive_update_formula at rpm = 30, earth, personMass = 70,
delta = 1, from the zero state. -/
theorem drive_update_formula_witness :
    (0:ℝ) < 30 ∧
    stepJoint Planet.earth true 30 70 1 ⟨0, 0, 0, 0⟩ =
      ⟨0 + (0 + (0 - 0) *
          (1.5 / Real.sqrt ((BOX_MASS + 70) / BOX_MASS)) * 1) * 0.88 * 1,
       0 + (0 + (clampedTargetZ Planet.earth 30 - 0) *
          (1.5 / Real.sqrt ((BOX_MASS + 70) / BOX_MASS)) * 1) * 0.88 * 1,
       (0 + (0 - 0) *
          (1.5 / Real.sqrt ((BOX_MASS + 70) / BOX_MASS)) * 1) * 0.88,
       (0 + (clampedTargetZ Planet.earth 30 - 0) *
          (1.5 / Real.sqrt ((BOX_MASS + 70) / BOX_MASS)) * 1) * 0.88⟩ :=
  ⟨by norm_num, drive_update_formula Planet.earth 30 70 1 ⟨0, 0, 0, 0⟩ (by norm_num)⟩

/-- C5: the per-tick joint target is PI/2 on the Z axis in space, the
arctangent of centrifugalAcceleration over gravity clamped to [0, PI/2] in
a gravity environment, and 0 on the X axis. -/
theorem joint_target_angles (rpm : ℝ) (p : Planet) (hp : p ≠ Planet.space) :
    clampedTargetZ Planet.space rpm = Real.pi / 2 ∧
    clampedTargetZ p rpm =
      min (max (Real.arctan (centrifugalAcceleration rpm / gravity p)) 0) (Real.pi / 2) ∧
    targetAngleX = 0 := by
  refine ⟨by simp [clampedTargetZ], ?_, rfl⟩
  have hg : 0 < gravity p := gravity_pos hp
  have harct : 0 ≤ Real.arctan (centrifugalAcceleration rpm / gravity p) :=
    arctan_nonneg (div_nonneg (centrifugalAcceleration_nonneg rpm) hg.le)
  rw [clampedTargetZ, if_neg hp, max_eq_left harct]

/-- Witness for joint_target_angles at rpm = 30 in the earth environment. -/
theorem joint_target_angles_witness :
    Planet.earth ≠ Planet.space ∧
    (clampedTargetZ Planet.space 30 = Real.pi / 2 ∧
     clampedTargetZ Planet.earth 30 =
       min (max (Real.arctan (centrifugalAcceleration 30 / gravity Planet.earth)) 0)
         (Real.pi / 2) ∧
     targetAngleX = 0) :=
  ⟨by decide, joint_target_angles 30 Planet.earth (by decide)⟩

/-- C6: while active with spin, the arm-lag target is
atan(centrifugalAcceleration / 10) * 0.8 * 0.3 in space and
atan(centrifugalAcceleration / gravity) * 0.8 in a gravity environment,
clamped to at most PI/6, and the lag moves toward it by
lag + (target - lag) * 2.0 * delta. -/
theorem lag_drive_update (p : Planet) (rpm delta lag : ℝ) (h : 0 < rpm) :
    stepLag p true rpm delta lag =
      lag + (min (if p = Planet.space then
            Real.arctan (centrifugalAcceleration rpm / 10) * 0.8 * 0.3
          else Real.arctan (centrifugalAcceleration rpm / gravity p) * 0.8)
          (Real.pi / 6) - lag) * 2.0 * delta := by
  rw [stepLag, if_pos ⟨rfl, h⟩]
  norm_num [clampedLagTarget, CENTRIFUGAL_BULGE_FACTOR]

/-- Witness for lag_drive_update at rpm = 20, moon, delta = 0.5, lag = 0.1. -/
theorem lag_drive_update_witness :
    (0:ℝ) < 20 ∧
    stepLag Planet.moon true 20 0.5 0.1 =
      0.1 + (min (if Planet.moon = Planet.space then
            Real.arctan (centrifugalAcceleration 20 / 10) * 0.8 * 0.3
          else Real.arctan (centrifugalAcceleration 20 / gravity Planet.moon) * 0.8)
          (Real.pi / 6) - 0.1) * 2.0 * 0.5 :=
  ⟨by norm_num, lag_drive_update Planet.moon 20 0.5 0.1 (by norm_num)⟩

/-- C7: with rpm = 0, both derived reports show zero centrifugal
acceleration and a combined gravity exactly equal to the environment's
gravity (0 in space), and the only division in the report has a nonzero
denominator. -/
theorem zero_spin_baseline (p : Planet) (isRotating : Bool) (personMass : ℝ)
    (h : 0 ≤ personMass) :
    appCentrifugalAcceleration isRotating 0 = 0 ∧
    appTotalGravity p isRotating 0 personMass = gravity p ∧
    BOX_MASS + personMass ≠ 0 ∧
    app2CentrifugalAcceleration 0 = 0 ∧
    app2TotalGravity p 0 = gravity p := by
  have htm : (0:ℝ) < BOX_MASS + personMass := by unfold BOX_MASS; linarith
  have hg : 0 ≤ gravity p := gravity_nonneg p
  have hca : appCentrifugalAcceleration isRotating 0 = 0 := by
    cases isRotating <;> simp [appCentrifugalAcceleration, angularVelocity]
  refine ⟨hca, ?_, ne_of_gt htm, ?_, ?_⟩
  · rw [appTotalGravity, hca]
    cases isRotating
    · simp only [Bool.false_eq_true, if_false]
      exact mul_div_cancel_left₀ _ (ne_of_gt htm)
    · simp only [if_true, mul_zero]
      by_cases hp : p = Planet.space
      · subst hp
        simp [gravity]
      · rw [if_neg hp, zero_add]
        have hgf : 0 ≤ (BOX_MASS + personMass) * gravity p := mul_nonneg htm.le hg
        rw [Real.sqrt_mul_self hgf]
        exact mul_div_cancel_left₀ _ (ne_of_gt htm)
  · simp [app2CentrifugalAcceleration, angularVelocity]
  · rw [app2TotalGravity, app2CentrifugalAcceleration]
    simp [angularVelocity, Real.sqrt_sq hg]

/-- Witness for zero_spin_baseline on earth while rotating with
personMass = 70. -/
theorem zero_spin_baseline_witness :
    (0:ℝ) ≤ 70 ∧
    (appCentrifugalAcceleration true 0 = 0 ∧
     appTotalGravity Planet.earth true 0 70 = gravity Planet.earth ∧
     BOX_MASS + 70 ≠ 0 ∧
     app2CentrifugalAcceleration 0 = 0 ∧
     app2TotalGravity Planet.earth 0 = gravity Planet.earth) :=
  ⟨by norm_num, zero_spin_baseline Planet.earth true 70 (by norm_num)⟩

/-- C9: every configuration reachable through the App's configuration
surface has a nonzero module count and strictly positive masses and arm
lengths, so no integration step ever runs with moduleCount = 0 or a
negative mass or length. -/
theorem accepted_config_valid (c : AppConfig) (h : acceptedConfig c) :
    habitatCount c.habitatConfig ≠ 0 ∧ 0 < c.personMass ∧
    0 < c.connectingArmLength ∧ (0:ℝ) < BOX_MASS ∧ (0:ℝ) < ARM_LENGTH := by
  obtain ⟨h1, -, h3, -, -, -⟩ := h
  refine ⟨?_, by linarith, by linarith, by norm_num [BOX_MASS], by norm_num [ARM_LENGTH]⟩
  cases hc : c.habitatConfig <;> simp [habitatCount]

/-- Witness for accepted_config_valid at the dual-habitat configuration
with personMass = 70, arm length 0.8, rpm = 20. -/
theorem accepted_config_valid_witness :
    acceptedConfig ⟨HabitatConfig.dual, 70, 0.8, 20⟩ ∧
    (habitatCount HabitatConfig.dual ≠ 0 ∧ (0:ℝ) < 70 ∧
     (0:ℝ) < 0.8 ∧ (0:ℝ) < BOX_MASS ∧ (0:ℝ) < ARM_LENGTH) :=
  ⟨by norm_num [acceptedConfig],
   accepted_config_valid ⟨HabitatConfig.dual, 70, 0.8, 20⟩ (by norm_num [acceptedConfig])⟩

/-- C1: with the rotation lock on in space, running one active second at
30 rpm, one paused second, then one more active second leaves
counterAngle + hubAngle = -PI, not 0: the counter-rotation is computed from
the wall clock's elapsed time, which keeps running while the hub is paused,
so the cancellation drifts. -/
theorem counterAngle_drifts_after_pause :
    (runSim Planet.space true
        [⟨1, true, 30⟩, ⟨1, false, 30⟩, ⟨1, true, 30⟩] ⟨0, 0, ⟨0, 0⟩⟩).box.boxRotation +
      (runSim Planet.space true
        [⟨1, true, 30⟩, ⟨1, false, 30⟩, ⟨1, true, 30⟩] ⟨0, 0, ⟨0, 0⟩⟩).hub = -Real.pi ∧
    (-Real.pi : ℝ) ≠ 0 := by
  constructor
  · norm_num [runSim, stepSim, stepHub, stepBox, angularVelocity]
    ring
  · simpa using Real.pi_ne_zero

/-- C2 counterexample: starting from the valid lag angle 0, one active tick
at 30 rpm on earth with delta = 1 drives the lag angle to PI/3, strictly
above the claimed bound PI/6 — the state is not clamped after the update. -/
theorem lagAngle_exceeds_max_after_one_tick :
    Real.pi / 6 < stepLag Planet.earth true 30 1 0 := by
  have hpi : (3:ℝ) < Real.pi := Real.pi_gt_three
  rw [stepLag, if_pos ⟨rfl, by norm_num⟩]
  have hca : (1:ℝ) ≤ centrifugalAcceleration 30 / gravity Planet.earth := by
    rw [le_div_iff₀ (by norm_num [gravity])]
    unfold centrifugalAcceleration angularVelocity ARM_LENGTH gravity
    nlinarith
  have harc : Real.pi / 4 ≤ Real.arctan (centrifugalAcceleration 30 / gravity Planet.earth) := by
    calc Real.pi / 4 = Real.arctan 1 := Real.arctan_one.symm
    _ ≤ _ := Real.arctan_strictMono.monotone hca
  have htarget : Real.pi / 6 ≤
      Real.arctan (centrifugalAcceleration 30 / gravity Planet.earth) *
        CENTRIFUGAL_BULGE_FACTOR := by
    unfold CENTRIFUGAL_BULGE_FACTOR
    nlinarith
  have hmin : clampedLagTarget Planet.earth 30 = Real.pi / 6 := by
    rw [clampedLagTarget, if_neg (by decide : Planet.earth ≠ Planet.space)]
    exact min_eq_right htarget
  rw [hmin]
  nlinarith

/-- C2 amended: only the per-tick targets are clamped — the joint Z target
to at most PI/2 and the arm-lag target to at most PI/6; the state angles
themselves receive no defensive clamp after the update. -/
theorem only_targets_are_clamped (p : Planet) (rpm : ℝ) :
    clampedTargetZ p rpm ≤ Real.pi / 2 ∧ clampedLagTarget p rpm ≤ Real.pi / 6 :=
  ⟨min_le_right _ _, min_le_right _ _⟩

/-- C8 counterexample: on earth with the mechanism stopped, a single return
step with delta = 1 takes the joint from rest at angleZ = 1 to
angleZ = -0.98, crossing 0 by about 56 degrees — far beyond the claimed
2-degree overshoot bound. -/
theorem gravity_return_overshoots :
    (stepJoint Planet.earth false 0 70 1 ⟨0, 1, 0, 0⟩).angleZ < -(Real.pi / 90) := by
  rw [stepJoint, if_neg (by simp), if_neg (by decide : Planet.earth ≠ Planet.space)]
  have hpi : Real.pi < 3.15 := Real.pi_lt_d2
  norm_num [GRAVITY_ALIGNMENT_SPEED, ANGULAR_DAMPING]
  nlinarith

/-- C8 amended: after active flips false in a gravity environment, a return
step from rest (zero stored velocity) with 0 <= delta <= 0.7 moves each
nonnegative angle toward 0 without crossing it; no overshoot bound holds
for arbitrary joint states or larger deltas. -/
theorem gravity_return_step_from_rest (p : Planet) (rpm personMass aX aZ delta : ℝ)
    (hp : p ≠ Planet.space) (hX : 0 ≤ aX) (hZ : 0 ≤ aZ)
    (h0 : 0 ≤ delta) (h1 : delta ≤ 0.7) :
    0 ≤ (stepJoint p false rpm personMass delta ⟨aX, aZ, 0, 0⟩).angleX ∧
    (stepJoint p false rpm personMass delta ⟨aX, aZ, 0, 0⟩).angleX ≤ aX ∧
    0 ≤ (stepJoint p false rpm personMass delta ⟨aX, aZ, 0, 0⟩).angleZ ∧
    (stepJoint p false rpm personMass delta ⟨aX, aZ, 0, 0⟩).angleZ ≤ aZ := by
  rw [stepJoint, if_neg (by simp), if_neg hp]
  norm_num [GRAVITY_ALIGNMENT_SPEED, ANGULAR_DAMPING]
  have hd2 : delta * delta ≤ 0.49 := by nlinarith
  have hXd : aX * (delta * delta) ≤ aX * 0.49 := mul_le_mul_of_nonneg_left hd2 hX
  have hZd : aZ * (delta * delta) ≤ aZ * 0.49 := mul_le_mul_of_nonneg_left hd2 hZ
  refine ⟨?_, ?_, ?_, ?_⟩ <;> nlinarith [mul_nonneg hX (mul_nonneg h0 h0),
    mul_nonneg hZ (mul_nonneg h0 h0)]

/-- Witness for gravity_return_step_from_rest on earth from angles 1 and
0.5 with delta = 0.5. -/
theorem gravity_return_step_from_rest_witness :
    Planet.earth ≠ Planet.space ∧ (0:ℝ) ≤ 1 ∧ (0:ℝ) ≤ 0.5 ∧
    (0:ℝ) ≤ 0.5 ∧ (0.5:ℝ) ≤ 0.7 ∧
    (0 ≤ (stepJoint Planet.earth false 0 70 0.5 ⟨1, 0.5, 0, 0⟩).angleX ∧
     (stepJoint Planet.earth false 0 70 0.5 ⟨1, 0.5, 0, 0⟩).angleX ≤ 1 ∧
     0 ≤ (stepJoint Planet.earth false 0 70 0.5 ⟨1, 0.5, 0, 0⟩).angleZ ∧
     (stepJoint Planet.earth false 0 70 0.5 ⟨1, 0.5, 0, 0⟩).angleZ ≤ 0.5) :=
  ⟨by decide, by norm_num, by norm_num, by norm_num, by norm_num,
   gravity_return_step_from_rest Planet.earth 0 70 1 0.5 0.5 (by decide)
     (by norm_num) (by norm_num) (by norm_num) (by norm_num)⟩

end StellaCradle
